import Mathlib

/-!
Verification development for the TV-show catalog browser.

The client code (state machine, cache, filter engine) is embedded shallowly:
JS strings are `List Char`, the mutable application state is an explicit
record threaded through the event handlers, and the single-threaded
run-to-completion event model of the app is a fold of atomic transitions.
The transport layer (`fetch`) is an oracle supplied as a parameter.
-/

namespace TVApp

/-! ### String helpers (models of the JS string primitives used by the app) -/

/-- Model of `String.prototype.toLowerCase` (ASCII fragment, per-character). -/
def jsToLower (s : List Char) : List Char := s.map Char.toLower

/-- Model of `String.prototype.trim`: strip whitespace from both ends. -/
def jsTrim (s : List Char) : List Char :=
  ((s.dropWhile Char.isWhitespace).reverse.dropWhile Char.isWhitespace).reverse

/-- Model of `hay.includes(needle)`: substring containment. -/
def jsIncludes (hay needle : List Char) : Bool := decide (needle <:+: hay)

/-- Scan forward to the character after the next `'>'`, if any.
Used to model the regex `/<[^>]*>/` of `extractText`'s fallback branch. -/
def findTagEnd : List Char → Option (List Char)
  | [] => none
  | c :: rest => if c = '>' then some rest else findTagEnd rest

/-- Model of `String(htmlString).replace(/<[^>]*>/g, '')`, fuel-indexed so that the
recursion is structural.  A `'<'` with no later `'>'` is not a match and is
kept verbatim, exactly as the regex behaves. -/
def stripTags : Nat → List Char → List Char
  | 0, s => s
  | fuel + 1, s =>
    match s with
    | [] => []
    | c :: rest =>
      if c = '<' then
        match findTagEnd rest with
        | some rest2 => stripTags fuel rest2
        | none => c :: rest
      else c :: stripTags fuel rest

/-- Model of the source's `extractText`: strip HTML markup, return plain text.
The DOM-parser branch is an external collaborator (spec §1); this is the
in-repo fallback `String(htmlString).replace(/<[^>]*>/g, '')`, with
`extractText '' = ''`. -/
def extractText (htmlString : List Char) : List Char :=
  stripTags htmlString.length htmlString

/-- Rendering `String(n)` of a natural number, as a character list (`Nat.repr`). -/
def natRepr (n : Nat) : List Char := (Nat.repr n).data

/-! ### Data model (spec §3; presentational fields that no claim touches
are omitted) -/

structure TVShow where
  id : Nat
  name : List Char
  summary : Option (List Char)
  genres : Option (List (List Char))
deriving DecidableEq, Repr

structure Episode where
  id : Nat
  season : Nat
  number : Nat
  name : List Char
  summary : Option (List Char)
deriving DecidableEq, Repr

/-! ### Selection & Filter Engine
(the pure filters extracted from `renderShowsView` / `renderEpisodesView`) -/

/-- The per-show match predicate of `renderShowsView`: folded name, folded
plain-text summary, or folded space-joined genre list contains the folded
search text. -/
def showMatchesSearch (searchText : List Char) (sh : TVShow) : Bool :=
  jsIncludes (jsToLower sh.name) searchText ||
  jsIncludes (jsToLower (extractText (sh.summary.getD []))) searchText ||
  jsIncludes (jsToLower (List.intercalate [' '] (sh.genres.getD []))) searchText

/-- The shows filter of `renderShowsView` (lines 268-279): the callback
returns `true` for every show when the lowercased, trimmed search text is
empty, else tests name / extracted summary / joined genres. -/
def filterShows (shows : List TVShow) (showSearchText : List Char) : List TVShow :=
  let searchText := jsTrim (jsToLower showSearchText)
  shows.filter (fun sh =>
    if searchText = [] then true else showMatchesSearch searchText sh)

/-- The per-episode match predicate of `renderEpisodesView`: folded name or
folded plain-text summary contains the folded search text. -/
def episodeMatchesSearch (searchText : List Char) (e : Episode) : Bool :=
  jsIncludes (jsToLower e.name) searchText ||
  jsIncludes (jsToLower (extractText (e.summary.getD []))) searchText

/-- The episodes filter of `renderEpisodesView` (lines 425-440): an explicit
selection (`String(episode.id) === state.selectedEpisodeId`) takes
precedence; else a non-empty trimmed search filters by name/summary; else
all episodes are kept. -/
def filterEpisodes (episodes : List Episode)
    (episodeSearchText selectedEpisodeId : List Char) : List Episode :=
  let searchText := jsTrim (jsToLower episodeSearchText)
  if selectedEpisodeId ≠ [] then
    episodes.filter (fun e => decide (natRepr e.id = selectedEpisodeId))
  else if searchText ≠ [] then
    episodes.filter (episodeMatchesSearch searchText)
  else
    episodes

/-! ### Episode code formatting (`formatEpisodeCode`, lines 561-565) -/

/-- Model of `String(x).padStart(2, '0')`. -/
def padStart2 (s : String) : String :=
  String.mk (List.replicate (2 - s.length) '0' ++ s.data)

/-- Model of `formatEpisodeCode`: `` `S${season}-E${number}` `` with each component
zero-padded to width 2. -/
def formatEpisodeCode (seasonNumber episodeNumber : Nat) : String :=
  "S" ++ padStart2 (Nat.repr seasonNumber) ++ "-E" ++ padStart2 (Nat.repr episodeNumber)

/-- Spec-side restatement of the episode-code format: `"S{season:02}-E{number:02}"`,
components zero-padded to at least two digits (spec §4.4, §8). -/
def padTwoSpec (k : Nat) : String :=
  if (Nat.repr k).length ≤ 1 then "0" ++ Nat.repr k else Nat.repr k

/-- Spec-side episode code, assembled from `padTwoSpec`. -/
def formatEpisodeCodeSpec (s n : Nat) : String :=
  "S" ++ padTwoSpec s ++ "-E" ++ padTwoSpec n

/-! ### Injectivity of decimal rendering

The select control stores `String(episode.id)` and the filter compares that
string against the stored selection, so relating the string comparison back
to id equality needs `Nat.repr` to be injective.  We normalise
`Nat.toDigitsCore` to a simple most-significant-first recursion and prove
that injective. -/

/-- Fuel-indexed decimal rendering, most significant digit first. -/
def renderNatF : Nat → Nat → List Char
  | 0, n => [Nat.digitChar (n % 10)]
  | fuel + 1, n =>
    if n < 10 then [Nat.digitChar n]
    else renderNatF fuel (n / 10) ++ [Nat.digitChar (n % 10)]

/-! ### Show sorting (`fetchTVShows`, lines 98-109)

`data.sort((a, b) => a.name.localeCompare(b.name, 'en', {sensitivity: 'base'}))`
is a stable sort under a case-insensitive comparator.  The locale-aware
base-sensitivity comparison is modelled as lexicographic order on the
case-folded names (its ASCII fragment).  A stable sort for a total preorder
is unique, so the stable `insertionSort` models `Array.prototype.sort`
(stable per the ES specification) faithfully. -/

/-- Comparator order of `fetchTVShows`: `a` may precede `b` iff the folded
name of `a` is lexicographically at most that of `b`
(`localeCompare(..., sensitivity base) ≤ 0`). -/
def showNameLe (a b : TVShow) : Prop := jsToLower a.name ≤ jsToLower b.name

instance : DecidableRel showNameLe :=
  fun a b => inferInstanceAs (Decidable (jsToLower a.name ≤ jsToLower b.name))

instance : IsTotal TVShow showNameLe := ⟨fun _ _ => le_total _ _⟩

instance : IsTrans TVShow showNameLe := ⟨fun _ _ _ h h2 => le_trans h h2⟩

/-- The sorting step of `fetchTVShows`: stable sort by folded display name. -/
def sortShows (data : List TVShow) : List TVShow := data.insertionSort showNameLe

/-! ### Remote Data Gateway and Cache Store

The transport layer is external (spec §1, §6): it is passed in as an oracle
giving, per resource, the JSON payload or a `NetworkError`.  The session's
event handlers run to completion, one at a time, including their awaited
fetch (spec §5), so each handler is one atomic transition.  The gateway's
`fetchCache` map stores each URL's result (`getJson` registers the promise
before it resolves, so a failure is stored too); `transportLog` records
every transport request actually issued, newest first, so that "at most one
request" claims are statements about the log. -/

/-- The two resource URLs the app requests (spec §6).  Distinct resources
have distinct URL strings (`Nat.repr` is injective), so the URL-string keys
of the JS `Map` are modelled by this key type. -/
inductive Url
  | showsU
  | episodesU (tvShowID : Nat)
deriving DecidableEq, Repr

/-- JSON payload of a successful transport response. -/
inductive ApiData
  | showsData (data : List TVShow)
  | episodesData (episodes : List Episode)
deriving DecidableEq, Repr

/-- The external transport: per resource, a payload or a `NetworkError`
(modelled as `Except Unit`). -/
structure Transport where
  showsResult : Except Unit (List TVShow)
  episodesResult : Nat → Except Unit (List Episode)

/-- One `fetch` + `response.json()` round trip against the external API. -/
def transportFetch (t : Transport) : Url → Except Unit ApiData
  | .showsU => t.showsResult.map ApiData.showsData
  | .episodesU id => (t.episodesResult id).map ApiData.episodesData

inductive Status
  | idle
  | loading
  | loaded
  | error
deriving DecidableEq, Repr

inductive View
  | shows
  | episodes
deriving DecidableEq, Repr

/-- The `state` record of the app (lines 10-20).  JS strings are
`List Char`; the `episodesByShowId` object is an association list keyed by
the stringified show id (JS object keys are strings). -/
structure AppState where
  status : Status
  errorMessage : String
  currentView : View
  shows : List TVShow
  showSearchText : List Char
  episodesByShowId : List (List Char × List Episode)
  selectedShowId : List Char
  episodeSearchText : List Char
  selectedEpisodeId : List Char
deriving DecidableEq, Repr

/-- Association-list lookup (models `Map.get` / JS object indexing). -/
def alookup {κ ν : Type} [DecidableEq κ] (k : κ) : List (κ × ν) → Option ν
  | [] => none
  | (k', v) :: rest => if k = k' then some v else alookup k rest

/-- A session: the app state, the gateway's `fetchCache`, and the log of
transport requests issued so far (newest first). -/
structure Session where
  app : AppState
  fetchCache : List (Url × Except Unit ApiData)
  transportLog : List Url
deriving Repr

/-- The state at page load (lines 10-20). -/
def initSession : Session :=
  { app :=
      { status := .idle
        errorMessage := ""
        currentView := .shows
        shows := []
        showSearchText := []
        episodesByShowId := []
        selectedShowId := []
        episodeSearchText := []
        selectedEpisodeId := [] }
    fetchCache := []
    transportLog := [] }

/-- Model of `getJson` (lines 112-127): serve from `fetchCache` when present;
otherwise issue one transport request, store its result under the URL
(the promise is registered before it resolves, so failures are stored too),
and return it. -/
def getJson (t : Transport) (sess : Session) (url : Url) :
    Session × Except Unit ApiData :=
  match alookup url sess.fetchCache with
  | some r => (sess, r)
  | none =>
    let r := transportFetch t url
    ({ sess with
        fetchCache := (url, r) :: sess.fetchCache
        transportLog := url :: sess.transportLog },
      r)

/-- The value a `getJson` call from `sess` would return (cached result if
present, else the transport's response). -/
def fetchResultFor (t : Transport) (sess : Session) (url : Url) :
    Except Unit ApiData :=
  match alookup url sess.fetchCache with
  | some r => r
  | none => transportFetch t url

/-- Model of `fetchTVShows` (lines 98-109): fetch the show list and sort it by
display name.  (The branch for an episode payload under the shows URL is
unreachable: `transportFetch` never produces one there.) -/
def fetchTVShows (t : Transport) (sess : Session) :
    Session × Except Unit (List TVShow) :=
  match getJson t sess .showsU with
  | (sess', .ok (.showsData data)) => (sess', .ok (sortShows data))
  | (sess', .ok (.episodesData _)) => (sess', .ok [])
  | (sess', .error e) => (sess', .error e)

/-- Assignment `state.status = 'loading'` (the first statement of `setup` and the
pre-fetch statement of `openShow`). -/
def markLoading (sess : Session) : Session :=
  { sess with app := { sess.app with status := .loading } }

/-- Model of `setup` (lines 41-60): status → loading, fetch shows; on success store
them and set loaded/shows view; on failure set the error state and message. -/
def setup (t : Transport) (sess : Session) : Session :=
  match fetchTVShows t (markLoading sess) with
  | (sess1, .ok tvShows) =>
    { sess1 with app := { sess1.app with
        shows := tvShows
        status := .loaded
        currentView := .shows } }
  | (sess1, .error _) =>
    { sess1 with app := { sess1.app with
        status := .error
        errorMessage := "Unable to load shows. Please try again." } }

/-- The first four statements of `openShow` (lines 188-191): select the
show, switch to episodes view, clear the episode selection and search. -/
def openShowEnter (sess : Session) (tvShowId : Nat) : Session :=
  { sess with app := { sess.app with
      selectedShowId := natRepr tvShowId
      currentView := .episodes
      selectedEpisodeId := []
      episodeSearchText := [] } }

/-- Assignments `state.episodesByShowId[tvShowId] = episodes; state.status = 'loaded'`
(lines 203-204). -/
def storeEpisodes (sess : Session) (tvShowId : Nat)
    (episodes : List Episode) : Session :=
  { sess with app := { sess.app with
      episodesByShowId :=
        (natRepr tvShowId, episodes) :: sess.app.episodesByShowId
      status := .loaded } }

/-- Model of `openShow` (lines 187-210): select the show, switch to episodes view,
clear the episode selection and search; if the show's episodes are not in
the per-show cache, fetch them (status → loading first).  A successful
fetch stores the episodes and sets loaded.  A rejected fetch propagates out
of `openShow` unhandled: the remaining statements are skipped, so the
status stays `loading` and no error message is set.  The cached-episodes
read is taken from `sess` — the preceding assignments do not touch
`episodesByShowId`.  (The shows-payload branch is unreachable:
`transportFetch` never yields a shows payload for an episodes URL.) -/
def openShow (t : Transport) (sess : Session) (tvShowId : Nat) : Session :=
  match alookup (natRepr tvShowId) sess.app.episodesByShowId with
  | some _ => openShowEnter sess tvShowId
  | none =>
    match getJson t (markLoading (openShowEnter sess tvShowId))
        (.episodesU tvShowId) with
    | (sessC, .ok (.episodesData episodes)) =>
      storeEpisodes sessC tvShowId episodes
    | (sessC, .ok (.showsData _)) => sessC
    | (sessC, .error _) => sessC

/-- Model of `episodeSelectionDidChange` (lines 215-218): record the select control's
value.  Note: it does not touch `episodeSearchText`. -/
def episodeSelectionDidChange (sess : Session) (value : List Char) : Session :=
  { sess with app := { sess.app with selectedEpisodeId := value } }

/-- Model of `episodeSearchDidChange` (lines 220-227): record the search text and
clear the explicit episode selection. -/
def episodeSearchDidChange (sess : Session) (text : List Char) : Session :=
  { sess with app := { sess.app with
      episodeSearchText := text
      selectedEpisodeId := [] } }

/-- The shows-search input handler (lines 64-69). -/
def showSearchDidChange (sess : Session) (text : List Char) : Session :=
  { sess with app := { sess.app with showSearchText := text } }

/-- The back button handler (lines 90-95). -/
def backToShows (sess : Session) : Session :=
  { sess with app := { sess.app with currentView := .shows } }

/-- User/navigation events (controller transition table, spec §4.5).
`openShowEv` covers both a show-card activation and a non-empty selection
in the show select control, which both call `openShow` with a show id. -/
inductive Ev
  | startup
  | showSearch (text : List Char)
  | openShowEv (tvShowId : Nat)
  | episodeSelect (value : List Char)
  | episodeSearch (text : List Char)
  | back

/-- One atomic event-handler run (spec §5: each handler, including its
awaited fetch, completes before the next begins). -/
def step (t : Transport) (sess : Session) : Ev → Session
  | .startup => setup t sess
  | .showSearch text => showSearchDidChange sess text
  | .openShowEv id => openShow t sess id
  | .episodeSelect v => episodeSelectionDidChange sess v
  | .episodeSearch text => episodeSearchDidChange sess text
  | .back => backToShows sess

/-- A session run: fold the event sequence over the initial session. -/
def run (t : Transport) (sess : Session) (evs : List Ev) : Session :=
  evs.foldl (step t) sess

/-- Model of `renderStatus` (lines 548-558): the status text shown in `root` —
`'Loading…'` while loading, the error message (or a generic fallback) in
the error state, nothing otherwise. -/
def renderStatusText (sess : Session) : Option String :=
  match sess.app.status with
  | .loading => some "Loading…"
  | .error =>
    some (if sess.app.errorMessage ≠ "" then sess.app.errorMessage
          else "An error occurred while loading episodes.")
  | _ => none

/-- Number of transport requests issued for `url` in a log. -/
def urlHits (url : Url) (log : List Url) : Nat :=
  (log.filter (fun u => decide (u = url))).length

/-- The gateway invariant maintained by every reachable session: every
cached entry is the transport's response for its URL, every URL ever
requested of the transport has a cache entry, and no URL has been requested
of the transport more than once. -/
def GatewayInv (t : Transport) (sess : Session) : Prop :=
  (∀ url r, alookup url sess.fetchCache = some r → r = transportFetch t url) ∧
  (∀ url, url ∈ sess.transportLog →
    (alookup url sess.fetchCache).isSome = true) ∧
  (∀ url, urlHits url sess.transportLog ≤ 1)

/-! ### Concrete sessions and transports used by witnesses and
counterexamples -/

/-- A sample episode (id 5). -/
def epPilot : Episode :=
  { id := 5, season := 1, number := 1, name := "Pilot".data, summary := none }

/-- A second sample episode (id 7). -/
def epSecond : Episode :=
  { id := 7, season := 1, number := 2, name := "Second".data,
    summary := some "<p>More plot.</p>".data }

/-- A sample show. -/
def shAlpha : TVShow :=
  { id := 2, name := "Alpha House".data,
    summary := some "<p>A drama.</p>".data,
    genres := some ["Drama".data] }

/-- A transport where every request succeeds: an empty show list, and
`[epPilot]` as every show's episode list. -/
def tHappy : Transport :=
  { showsResult := .ok [], episodesResult := fun _ => .ok [epPilot] }

/-- A transport where the show list loads but every episode fetch fails. -/
def tEpFail : Transport :=
  { showsResult := .ok [], episodesResult := fun _ => .error () }

/-- A transport where every request fails. -/
def tAllFail : Transport :=
  { showsResult := .error (), episodesResult := fun _ => .error () }

/-- A session whose Cache Store already has episodes for show 10. -/
def sessCached : Session :=
  { initSession with app :=
      { initSession.app with episodesByShowId := [(natRepr 10, [epPilot])] } }

/-- A session whose gateway cache already has a completed shows result. -/
def sessWithEntry : Session :=
  { initSession with
      fetchCache := [(Url.showsU, Except.ok (ApiData.showsData []))] }

/-! ### Example shows and transports for the sorting claims -/

/-- The `["Zeta", "alpha", "Beta"]` example shows (spec §8). -/
def zetaShow : TVShow :=
  { id := 1, name := "Zeta".data, summary := none, genres := none }

/-- See `zetaShow`. -/
def alphaShow : TVShow :=
  { id := 2, name := "alpha".data, summary := none, genres := none }

/-- See `zetaShow`. -/
def betaShow : TVShow :=
  { id := 3, name := "Beta".data, summary := none, genres := none }

/-- Two shows whose display names fold to the same key. -/
def twinShow1 : TVShow :=
  { id := 4, name := "Twin".data, summary := none, genres := none }

/-- See `twinShow1`. -/
def twinShow2 : TVShow :=
  { id := 5, name := "TWIN".data, summary := none, genres := none }

/-- A transport delivering the three-show example list. -/
def tSort : Transport :=
  { showsResult := .ok [zetaShow, alphaShow, betaShow],
    episodesResult := fun _ => .ok [] }

/-! ## Theorems -/

theorem renderNatF_ne_nil (fuel n : Nat) : renderNatF fuel n ≠ [] := by
  cases fuel with
  | zero => simp [renderNatF]
  | succ f =>
    by_cases h : n < 10 <;> simp [renderNatF, h]

theorem toDigitsCore_acc (b : Nat) :
    ∀ (f n : Nat) (ds : List Char),
      Nat.toDigitsCore b f n ds = Nat.toDigitsCore b f n [] ++ ds := by
  intro f
  induction f with
  | zero => intro n ds; simp [Nat.toDigitsCore]
  | succ f ih =>
    intro n ds
    simp only [Nat.toDigitsCore]
    by_cases h : n / b = 0
    · simp [h]
    · simp only [h, if_false]
      rw [ih (n / b) (Nat.digitChar (n % b) :: ds),
          ih (n / b) [Nat.digitChar (n % b)], List.append_assoc]
      rfl

theorem toDigitsCore_renderNatF :
    ∀ (f g n : Nat), n < f → n < g →
      Nat.toDigitsCore 10 f n [] = renderNatF g n := by
  intro f
  induction f with
  | zero => intro g n hf; omega
  | succ f ih =>
    intro g n hf hg
    cases g with
    | zero => omega
    | succ g =>
      simp only [Nat.toDigitsCore, renderNatF]
      by_cases h : n < 10
      · have hdiv : n / 10 = 0 := Nat.div_eq_of_lt h
        simp [hdiv, h, Nat.mod_eq_of_lt h]
      · have hdiv : n / 10 ≠ 0 := by omega
        simp only [hdiv, if_false, h, if_false]
        rw [toDigitsCore_acc, ih g (n / 10) (by omega) (by omega)]

theorem natRepr_eq_renderNatF (n : Nat) : natRepr n = renderNatF (n + 1) n := by
  show (Nat.repr n).data = _
  rw [Nat.repr, Nat.toDigits]
  have h := toDigitsCore_renderNatF (n + 1) (n + 1) n (Nat.lt_succ_self n) (Nat.lt_succ_self n)
  rw [show (Nat.toDigitsCore 10 (n + 1) n []).asString.data
        = Nat.toDigitsCore 10 (n + 1) n [] from rfl, h]

theorem digitChar_inj :
    ∀ a < 10, ∀ b < 10, Nat.digitChar a = Nat.digitChar b → a = b := by decide

theorem renderNatF_inj :
    ∀ (g1 : Nat) (g2 m n : Nat), m < g1 → n < g2 →
      renderNatF g1 m = renderNatF g2 n → m = n := by
  intro g1
  induction g1 with
  | zero => intro g2 m n h1; omega
  | succ g1 ih =>
    intro g2 m n h1 h2 heq
    cases g2 with
    | zero => omega
    | succ g2 =>
      simp only [renderNatF] at heq
      by_cases hm : m < 10 <;> by_cases hn : n < 10
      · simp only [hm, if_true, hn, if_true, List.cons.injEq] at heq
        exact digitChar_inj m hm n hn heq.1
      · exfalso
        simp only [hm, if_true, hn, if_false] at heq
        have hlen := congrArg List.length heq
        simp only [List.length_append, List.length_cons, List.length_nil] at hlen
        have h0 : (renderNatF g2 (n / 10)).length = 0 := by omega
        exact renderNatF_ne_nil g2 (n / 10) (List.length_eq_zero.mp h0)
      · exfalso
        simp only [hm, if_false, hn, if_true] at heq
        have hlen := congrArg List.length heq
        simp only [List.length_append, List.length_cons, List.length_nil] at hlen
        have h0 : (renderNatF g1 (m / 10)).length = 0 := by omega
        exact renderNatF_ne_nil g1 (m / 10) (List.length_eq_zero.mp h0)
      · simp only [hm, if_false, hn, if_false] at heq
        have hlen : ([Nat.digitChar (m % 10)] : List Char).length
            = ([Nat.digitChar (n % 10)] : List Char).length := rfl
        obtain ⟨hpre, hsuf⟩ := List.append_inj' heq hlen
        have hdivm : m / 10 < g1 := by
          have : m / 10 < m := Nat.div_lt_self (by omega) (by norm_num)
          omega
        have hdivn : n / 10 < g2 := by
          have : n / 10 < n := Nat.div_lt_self (by omega) (by norm_num)
          omega
        have hdiv := ih g2 (m / 10) (n / 10) hdivm hdivn hpre
        have hmod : m % 10 = n % 10 := by
          simp only [List.cons.injEq] at hsuf
          exact digitChar_inj (m % 10) (by omega) (n % 10) (by omega) hsuf.1
        omega

theorem natRepr_inj {m n : Nat} (h : natRepr m = natRepr n) : m = n := by
  rw [natRepr_eq_renderNatF, natRepr_eq_renderNatF] at h
  exact renderNatF_inj (m + 1) (n + 1) m n (Nat.lt_succ_self m) (Nat.lt_succ_self n) h

theorem natRepr_ne_nil (n : Nat) : natRepr n ≠ [] := by
  rw [natRepr_eq_renderNatF]; exact renderNatF_ne_nil _ _

/-! ### Gateway lemmas -/

theorem urlHits_cons (url u : Url) (log : List Url) :
    urlHits url (u :: log) =
      if u = url then urlHits url log + 1 else urlHits url log := by
  by_cases h : u = url <;> simp [urlHits, List.filter, h]

theorem urlHits_eq_zero (url : Url) (log : List Url) (h : url ∉ log) :
    urlHits url log = 0 := by
  induction log with
  | nil => rfl
  | cons u log ih =>
    have h1 : url ∉ log := fun hm => h (List.mem_cons_of_mem _ hm)
    have h2 : u ≠ url := fun he => h (by simp [he])
    rw [urlHits_cons, if_neg h2]
    exact ih h1

/-- The invariant `GatewayInv` only reads the gateway fields. -/
theorem GatewayInv_congr {t : Transport} {s1 s2 : Session}
    (hc : s1.fetchCache = s2.fetchCache)
    (hl : s1.transportLog = s2.transportLog)
    (h : GatewayInv t s2) : GatewayInv t s1 := by
  rw [GatewayInv, hc, hl]; exact h

/-- What a `getJson` call returns: the cached value if present, else the
transport's response. -/
theorem getJson_snd (t : Transport) (sess : Session) (url : Url) :
    (getJson t sess url).2 = fetchResultFor t sess url := by
  rw [getJson, fetchResultFor]
  cases hc : alookup url sess.fetchCache <;> simp

/-- The gateway `getJson` never drops a cache entry. -/
theorem getJson_preserves_entry (t : Transport) (sess : Session) (url u : Url)
    (r : Except Unit ApiData) (h : alookup u sess.fetchCache = some r) :
    alookup u (getJson t sess url).1.fetchCache = some r := by
  rw [getJson]
  cases hc : alookup url sess.fetchCache with
  | some rr => simpa using h
  | none =>
    have he : u ≠ url := by
      intro heq; rw [heq, hc] at h; cases h
    simpa [alookup, he] using h

/-- The gateway `getJson` preserves the gateway invariant. -/
theorem getJson_inv (t : Transport) (sess : Session) (url : Url)
    (h : GatewayInv t sess) : GatewayInv t (getJson t sess url).1 := by
  obtain ⟨hcc, hlb, hdd⟩ := h
  rw [getJson]
  cases hc : alookup url sess.fetchCache with
  | some rr => exact ⟨hcc, hlb, hdd⟩
  | none =>
    refine ⟨?_, ?_, ?_⟩
    · intro u r hu
      by_cases he : u = url
      · subst he
        simp only [alookup, if_pos rfl] at hu
        cases hu; rfl
      · simp only [alookup, if_neg he] at hu
        exact hcc u r hu
    · intro u hu
      by_cases he : u = url
      · subst he; simp [alookup]
      · simp only [List.mem_cons] at hu
        rcases hu with hu | hu
        · exact absurd hu he
        · have := hlb u hu
          simp only [alookup, if_neg he]
          exact this
    · intro u
      by_cases he : u = url
      · subst he
        have hnm : u ∉ sess.transportLog := by
          intro hm
          have := hlb u hm
          rw [hc] at this
          cases this
        simp only []
        rw [urlHits_cons, if_pos rfl, urlHits_eq_zero u _ hnm]
      · simp only []
        rw [urlHits_cons, if_neg (fun hh => he hh.symm)]
        exact hdd u

/-- The gateway `getJson` reads and writes only the gateway fields, so sessions that
agree on those fields are taken to sessions that agree on them. -/
theorem getJson_gateway_eq (t : Transport) (s1 s2 : Session) (url : Url)
    (hc : s1.fetchCache = s2.fetchCache)
    (hl : s1.transportLog = s2.transportLog) :
    (getJson t s1 url).1.fetchCache = (getJson t s2 url).1.fetchCache ∧
    (getJson t s1 url).1.transportLog = (getJson t s2 url).1.transportLog := by
  rw [getJson, getJson, hc, hl]
  cases h2 : alookup url s2.fetchCache <;> simp [hc, hl]

/-- The handler `setup` touches the gateway fields exactly as one `getJson` of the
shows URL does. -/
theorem setup_gateway (t : Transport) (sess : Session) :
    (setup t sess).fetchCache = (getJson t sess .showsU).1.fetchCache ∧
    (setup t sess).transportLog = (getJson t sess .showsU).1.transportLog := by
  obtain ⟨hc, hl⟩ := getJson_gateway_eq t (markLoading sess) sess Url.showsU rfl rfl
  rw [setup, fetchTVShows]
  rcases hg : getJson t (markLoading sess) Url.showsU with ⟨s', res⟩
  rw [hg] at hc hl
  rcases res with e | d
  · simpa using ⟨hc, hl⟩
  · rcases d with d | d <;> simpa using ⟨hc, hl⟩

/-- The handler `openShow` either leaves the gateway fields unchanged or touches them
exactly as one `getJson` of that show's episodes URL does. -/
theorem openShow_gateway (t : Transport) (sess : Session) (id : Nat) :
    ((openShow t sess id).fetchCache = sess.fetchCache ∧
     (openShow t sess id).transportLog = sess.transportLog) ∨
    ((openShow t sess id).fetchCache
        = (getJson t sess (.episodesU id)).1.fetchCache ∧
     (openShow t sess id).transportLog
        = (getJson t sess (.episodesU id)).1.transportLog) := by
  rw [openShow]
  cases ha : alookup (natRepr id) sess.app.episodesByShowId with
  | some eps => exact Or.inl ⟨rfl, rfl⟩
  | none =>
    right
    obtain ⟨hc, hl⟩ := getJson_gateway_eq t
      (markLoading (openShowEnter sess id)) sess (Url.episodesU id) rfl rfl
    rcases hg : getJson t (markLoading (openShowEnter sess id))
        (Url.episodesU id) with ⟨s', res⟩
    rw [hg] at hc hl
    rcases res with e | d
    · simpa using ⟨hc, hl⟩
    · rcases d with d | d <;> simpa [storeEpisodes] using ⟨hc, hl⟩

/-- Every event either leaves the gateway fields unchanged or touches them
exactly as one `getJson` does. -/
theorem step_gateway (t : Transport) (sess : Session) (ev : Ev) :
    ((step t sess ev).fetchCache = sess.fetchCache ∧
     (step t sess ev).transportLog = sess.transportLog) ∨
    (∃ url,
      (step t sess ev).fetchCache = (getJson t sess url).1.fetchCache ∧
      (step t sess ev).transportLog = (getJson t sess url).1.transportLog) := by
  cases ev with
  | startup => exact Or.inr ⟨Url.showsU, setup_gateway t sess⟩
  | showSearch text => exact Or.inl ⟨rfl, rfl⟩
  | openShowEv id =>
    rcases openShow_gateway t sess id with h | h
    · exact Or.inl h
    · exact Or.inr ⟨Url.episodesU id, h⟩
  | episodeSelect v => exact Or.inl ⟨rfl, rfl⟩
  | episodeSearch text => exact Or.inl ⟨rfl, rfl⟩
  | back => exact Or.inl ⟨rfl, rfl⟩

/-- Every event preserves the gateway invariant. -/
theorem step_inv (t : Transport) (sess : Session) (ev : Ev)
    (h : GatewayInv t sess) : GatewayInv t (step t sess ev) := by
  rcases step_gateway t sess ev with ⟨hc, hl⟩ | ⟨url, hc, hl⟩
  · exact GatewayInv_congr hc hl h
  · exact GatewayInv_congr hc hl (getJson_inv t sess url h)

/-- Any run preserves the gateway invariant. -/
theorem run_inv (t : Transport) (evs : List Ev) (sess : Session)
    (h : GatewayInv t sess) : GatewayInv t (run t sess evs) := by
  induction evs generalizing sess with
  | nil => exact h
  | cons ev evs ih => exact ih (step t sess ev) (step_inv t sess ev h)

/-- The initial session satisfies the gateway invariant. -/
theorem initSession_inv (t : Transport) : GatewayInv t initSession := by
  refine ⟨?_, ?_, ?_⟩
  · intro url r h; cases h
  · intro url h; cases h
  · intro url; rw [show urlHits url initSession.transportLog = 0 from rfl]
    omega

/-- No event removes a gateway cache entry. -/
theorem step_preserves_entry (t : Transport) (sess : Session) (ev : Ev)
    (u : Url) (r : Except Unit ApiData)
    (h : alookup u sess.fetchCache = some r) :
    alookup u (step t sess ev).fetchCache = some r := by
  rcases step_gateway t sess ev with ⟨hc, _⟩ | ⟨url, hc, _⟩
  · rw [hc]; exact h
  · rw [hc]; exact getJson_preserves_entry t sess url u r h

/-- No run removes a gateway cache entry. -/
theorem run_preserves_entry (t : Transport) (evs : List Ev) (sess : Session)
    (u : Url) (r : Except Unit ApiData)
    (h : alookup u sess.fetchCache = some r) :
    alookup u (run t sess evs).fetchCache = some r := by
  induction evs generalizing sess with
  | nil => exact h
  | cons ev evs ih =>
    exact ih (step t sess ev) (step_preserves_entry t sess ev u r h)

/-- The gateway `getJson` does not change the app state. -/
theorem getJson_app (t : Transport) (sess : Session) (url : Url) :
    (getJson t sess url).1.app = sess.app := by
  rw [getJson]
  cases hc : alookup url sess.fetchCache <;> simp

/-! ### `openShow` branch equations -/

/-- Cached branch of `openShow`: no fetch happens. -/
theorem openShow_cached (t : Transport) (sess : Session) (id : Nat)
    (eps : List Episode)
    (h : alookup (natRepr id) sess.app.episodesByShowId = some eps) :
    openShow t sess id = openShowEnter sess id := by
  rw [openShow, h]

/-- Successful-fetch branch of `openShow`: the fetched episodes are stored
under the show id. -/
theorem openShow_fetch_ok (t : Transport) (sess : Session) (id : Nat)
    (eps : List Episode)
    (h : alookup (natRepr id) sess.app.episodesByShowId = none)
    (hr : fetchResultFor t sess (.episodesU id) = .ok (.episodesData eps)) :
    openShow t sess id =
      storeEpisodes
        (getJson t (markLoading (openShowEnter sess id)) (.episodesU id)).1
        id eps := by
  rw [openShow, h]
  have h2 : (getJson t (markLoading (openShowEnter sess id))
      (Url.episodesU id)).2 = .ok (.episodesData eps) := by
    rw [getJson_snd]; exact hr
  rcases hg : getJson t (markLoading (openShowEnter sess id))
      (Url.episodesU id) with ⟨s', res⟩
  rw [hg] at h2
  simp only at h2
  subst h2
  simp [hg]

/-- Failed-fetch branch of `openShow`: the rejection aborts the handler
after the `getJson` call, so only the gateway fields have changed beyond
the entry assignments. -/
theorem openShow_fetch_err (t : Transport) (sess : Session) (id : Nat)
    (h : alookup (natRepr id) sess.app.episodesByShowId = none)
    (hr : fetchResultFor t sess (.episodesU id) = .error ()) :
    openShow t sess id =
      (getJson t (markLoading (openShowEnter sess id)) (.episodesU id)).1 := by
  rw [openShow, h]
  have h2 : (getJson t (markLoading (openShowEnter sess id))
      (Url.episodesU id)).2 = .error () := by
    rw [getJson_snd]; exact hr
  rcases hg : getJson t (markLoading (openShowEnter sess id))
      (Url.episodesU id) with ⟨s', res⟩
  rw [hg] at h2
  simp only at h2
  subst h2
  simp [hg]

/-! ### Claims about the gateway and the episode cache -/

/-- C10: for every URL, the gateway issues at most one transport request
per session even when the request fails: the result is recorded under the
URL and every later `getJson` call for that URL returns exactly the
transport's one result (including a failure), so a failed fetch is never
retried within a session and all callers observe the same result. -/
theorem getJson_once_per_url (t : Transport) (evs : List Ev) (url : Url) :
    urlHits url (run t initSession evs).transportLog ≤ 1 ∧
    (getJson t (run t initSession evs) url).2 = transportFetch t url := by
  obtain ⟨hcc, hlb, hdd⟩ := run_inv t evs initSession (initSession_inv t)
  refine ⟨hdd url, ?_⟩
  rw [getJson_snd, fetchResultFor]
  cases hc : alookup url (run t initSession evs).fetchCache with
  | some r => exact hcc url r hc
  | none => rfl

/-- C1: for every show id, across any number of `openShow(id)` calls in one
session, at most one transport request is issued for that show's episodes
URL; an `openShow(id)` that finds the episodes cached leaves the transport
log and the cached entry untouched, and the first `openShow(id)` whose
fetch succeeds stores the episodes under that id. -/
theorem openShow_fetches_once (t : Transport) (evs : List Ev) (id : Nat) :
    urlHits (Url.episodesU id) (run t initSession evs).transportLog ≤ 1 ∧
    (∀ sess eps, alookup (natRepr id) sess.app.episodesByShowId = some eps →
      (openShow t sess id).transportLog = sess.transportLog ∧
      alookup (natRepr id) (openShow t sess id).app.episodesByShowId
        = some eps) ∧
    (∀ sess eps, alookup (natRepr id) sess.app.episodesByShowId = none →
      fetchResultFor t sess (Url.episodesU id) = .ok (.episodesData eps) →
      alookup (natRepr id) (openShow t sess id).app.episodesByShowId
        = some eps) := by
  refine ⟨(run_inv t evs initSession (initSession_inv t)).2.2 _, ?_, ?_⟩
  · intro sess eps h
    rw [openShow_cached t sess id eps h]
    exact ⟨rfl, h⟩
  · intro sess eps h hr
    rw [openShow_fetch_ok t sess id eps h hr]
    simp [storeEpisodes, alookup]

/-- Witness for C1 at show id 10: a cached `openShow` issues no transport
request and keeps the entry; a first successful `openShow` stores the
fetched episodes. -/
theorem openShow_fetches_once_witness :
    ((openShow tHappy sessCached 10).transportLog
        = sessCached.transportLog ∧
      alookup (natRepr 10)
          (openShow tHappy sessCached 10).app.episodesByShowId
        = some [epPilot]) ∧
    alookup (natRepr 10)
        (openShow tHappy initSession 10).app.episodesByShowId
      = some [epPilot] :=
  ⟨(openShow_fetches_once tHappy [] 10).2.1 sessCached [epPilot] rfl,
    (openShow_fetches_once tHappy [] 10).2.2 initSession [epPilot] rfl rfl⟩

/-- C5 (amended): a failure while fetching episodes for one show is scoped
to that show only — the cached shows list, the per-show episode cache and
the error message are unchanged — but no error is surfaced for it: the app
stays in the `loading` state showing the loading status message, because
`openShow` does not catch the rejection.  A failure of the initial shows
fetch does put the application into the error state with an error message
for the session. -/
theorem fetch_failure_scoping (t : Transport) (sess : Session) (id : Nat) :
    (alookup (natRepr id) sess.app.episodesByShowId = none →
      fetchResultFor t sess (Url.episodesU id) = .error () →
        (openShow t sess id).app.shows = sess.app.shows ∧
        (openShow t sess id).app.episodesByShowId
            = sess.app.episodesByShowId ∧
        (openShow t sess id).app.status = .loading ∧
        (openShow t sess id).app.errorMessage = sess.app.errorMessage ∧
        renderStatusText (openShow t sess id) = some "Loading…") ∧
    (fetchResultFor t sess Url.showsU = .error () →
        (setup t sess).app.status = .error ∧
        (setup t sess).app.errorMessage
            = "Unable to load shows. Please try again." ∧
        renderStatusText (setup t sess)
            = some "Unable to load shows. Please try again.") := by
  constructor
  · intro h hr
    have happ := getJson_app t (markLoading (openShowEnter sess id))
      (Url.episodesU id)
    rw [openShow_fetch_err t sess id h hr]
    refine ⟨by rw [happ]; rfl, by rw [happ]; rfl, by rw [happ]; rfl,
      by rw [happ]; rfl, ?_⟩
    rw [renderStatusText, happ]
    rfl
  · intro hr
    have h2 : (getJson t (markLoading sess) Url.showsU).2 = .error () := by
      rw [getJson_snd]; exact hr
    rw [setup, fetchTVShows]
    rcases hg : getJson t (markLoading sess) Url.showsU with ⟨s', res⟩
    rw [hg] at h2
    simp only at h2
    subst h2
    simp [hg, renderStatusText]

/-- Witness for C5 at show id 10 / the initial session, with an
all-failing transport. -/
theorem fetch_failure_scoping_witness :
    ((openShow tAllFail initSession 10).app.episodesByShowId
        = initSession.app.episodesByShowId ∧
      (openShow tAllFail initSession 10).app.status = Status.loading) ∧
    (setup tAllFail initSession).app.status = Status.error := by
  have h := fetch_failure_scoping tAllFail initSession 10
  exact ⟨⟨(h.1 rfl rfl).2.1, (h.1 rfl rfl).2.2.1⟩, (h.2 rfl).1⟩

/-- C5 counterexample: after the shows load succeeds and `openShow(10)`
fails, the claimed "error surfaced as a status message" does not happen:
the status is still `loading`, the error message is untouched, and the
rendered status text is the loading message, not an error. -/
theorem openShow_failure_not_surfaced_cex :
    (run tEpFail initSession [Ev.startup, Ev.openShowEv 10]).app.status
        = Status.loading ∧
    (run tEpFail initSession [Ev.startup, Ev.openShowEv 10]).app.errorMessage
        = "" ∧
    renderStatusText (run tEpFail initSession [Ev.startup, Ev.openShowEv 10])
        = some "Loading…" :=
  ⟨rfl, rfl, rfl⟩

/-- C6 (amended): the gateway serves any URL already in `fetchCache`
without a transport call and without touching the session, stores the
transport result under the URL on a miss, and retains every stored entry
for the remainder of the session — including completed (even failed)
results the Cache Store never stores.  It is a session-long URL-keyed
cache, not only an in-flight-request collapsing layer. -/
theorem gateway_retention (t : Transport) (sess : Session) (url : Url) :
    (∀ r, alookup url sess.fetchCache = some r →
      getJson t sess url = (sess, r)) ∧
    (alookup url sess.fetchCache = none →
      (getJson t sess url).1.fetchCache
          = (url, transportFetch t url) :: sess.fetchCache) ∧
    (∀ evs u r, alookup u sess.fetchCache = some r →
      alookup u (run t sess evs).fetchCache = some r) := by
  refine ⟨?_, ?_, ?_⟩
  · intro r h; rw [getJson, h]
  · intro h; rw [getJson, h]
  · intro evs u r h; exact run_preserves_entry t evs sess u r h

/-- Witness for C6: a cached shows result is served as-is, and survives a
further event. -/
theorem gateway_retention_witness :
    getJson tHappy sessWithEntry Url.showsU
        = (sessWithEntry, Except.ok (ApiData.showsData [])) ∧
    alookup Url.showsU (run tHappy sessWithEntry [Ev.back]).fetchCache
        = some (Except.ok (ApiData.showsData [])) :=
  ⟨(gateway_retention tHappy sessWithEntry Url.showsU).1 _ rfl,
    (gateway_retention tHappy sessWithEntry Url.showsU).2.2 [Ev.back]
      Url.showsU _ rfl⟩

/-! ### Claims about the controller's episode selection/search handlers -/

/-- C2 (amended): every change of the episode search text clears the
explicit episode selection, but setting an explicit episode selection
leaves the episode search text unchanged (only `openShow` clears both), so
a search typed before a selection survives the selection: the two fields
can be simultaneously non-empty, the selection merely taking precedence in
the filter. -/
theorem episode_search_selection_transitions (t : Transport) (sess : Session)
    (text value : List Char) (id : Nat) :
    (episodeSearchDidChange sess text).app.selectedEpisodeId = [] ∧
    (episodeSearchDidChange sess text).app.episodeSearchText = text ∧
    (episodeSelectionDidChange sess value).app.selectedEpisodeId = value ∧
    (episodeSelectionDidChange sess value).app.episodeSearchText
        = sess.app.episodeSearchText ∧
    (openShow t sess id).app.selectedEpisodeId = [] ∧
    (openShow t sess id).app.episodeSearchText = [] := by
  refine ⟨rfl, rfl, rfl, rfl, ?_⟩
  rw [openShow]
  cases ha : alookup (natRepr id) sess.app.episodesByShowId with
  | some eps => exact ⟨rfl, rfl⟩
  | none =>
    have happ := getJson_app t (markLoading (openShowEnter sess id))
      (Url.episodesU id)
    rcases hg : getJson t (markLoading (openShowEnter sess id))
        (Url.episodesU id) with ⟨s', res⟩
    rw [hg] at happ
    rcases res with e | d
    · simpa using ⟨by rw [happ]; rfl, by rw [happ]; rfl⟩
    · rcases d with d | d
      · simpa using ⟨by rw [happ]; rfl, by rw [happ]; rfl⟩
      · simpa [storeEpisodes] using ⟨by rw [happ]; rfl, by rw [happ]; rfl⟩

/-- C2 counterexample: search "foo", then explicitly select episode 5 —
the selection handler does not clear the search text, so both state fields
are non-empty after this event sequence. -/
theorem selection_keeps_search_cex :
    (run tHappy initSession
        [Ev.startup, Ev.openShowEv 10, Ev.episodeSearch "foo".data,
          Ev.episodeSelect (natRepr 5)]).app.episodeSearchText = "foo".data ∧
    (run tHappy initSession
        [Ev.startup, Ev.openShowEv 10, Ev.episodeSearch "foo".data,
          Ev.episodeSelect (natRepr 5)]).app.selectedEpisodeId = natRepr 5 ∧
    "foo".data ≠ ([] : List Char) ∧ natRepr 5 ≠ ([] : List Char) :=
  ⟨rfl, rfl, by decide, by decide⟩

/-! ### Claims about the Selection & Filter Engine -/

/-- Filtering a list by equality on a key held by a member, when the keys
of the list are distinct, keeps exactly that member. -/
theorem filter_by_unique_key {α κ : Type} [DecidableEq κ] (key : α → κ) :
    ∀ (l : List α), (l.map key).Nodup → ∀ e ∈ l,
      l.filter (fun x => decide (key x = key e)) = [e] := by
  intro l
  induction l with
  | nil => intro _ e he; cases he
  | cons a l ih =>
    intro hnd e he
    rw [List.map_cons, List.nodup_cons] at hnd
    rcases List.mem_cons.mp he with he | he
    · subst he
      rw [List.filter_cons_of_pos (by simp)]
      have hnone : ∀ x ∈ l, ¬ (decide (key x = key e) = true) := by
        intro x hx hkey
        exact hnd.1 (List.mem_map.mpr ⟨x, hx, of_decide_eq_true hkey⟩)
      rw [List.filter_eq_nil_iff.mpr hnone]
    · have hne : key a ≠ key e := by
        intro hk
        exact hnd.1 (hk ▸ List.mem_map.mpr ⟨e, he, rfl⟩)
      rw [List.filter_cons_of_neg (by simpa using hne)]
      exact ih hnd.2 e he

/-- C3: the episode filter returns exactly the episodes whose rendered id
equals a non-empty selection — with unique episode ids, exactly the single
selected episode, or the empty list (not an error) when no episode has
that id; with no selection it filters by the folded search text when that
is non-empty, and otherwise returns all episodes in order. -/
theorem filterEpisodes_spec (episodes : List Episode)
    (search selId : List Char) :
    (selId ≠ [] →
      filterEpisodes episodes search selId
          = episodes.filter (fun e => decide (natRepr e.id = selId))) ∧
    (selId ≠ [] → (episodes.map Episode.id).Nodup →
      ∀ e ∈ episodes, natRepr e.id = selId →
        filterEpisodes episodes search selId = [e]) ∧
    (selId ≠ [] → (∀ e ∈ episodes, natRepr e.id ≠ selId) →
      filterEpisodes episodes search selId = []) ∧
    (selId = [] → jsTrim (jsToLower search) ≠ [] →
      filterEpisodes episodes search selId
          = episodes.filter (episodeMatchesSearch (jsTrim (jsToLower search)))) ∧
    (selId = [] → jsTrim (jsToLower search) = [] →
      filterEpisodes episodes search selId = episodes) := by
  refine ⟨?_, ?_, ?_, ?_, ?_⟩
  · intro hsel
    simp [filterEpisodes, hsel]
  · intro hsel hnd e he hk
    have hmap : (episodes.map (fun e => natRepr e.id)).Nodup := by
      have h2 := hnd.map (fun _ _ h => natRepr_inj h)
      rw [List.map_map] at h2
      exact h2
    have := filter_by_unique_key (fun e : Episode => natRepr e.id)
      episodes hmap e he
    simpa [filterEpisodes, hsel, hk] using this
  · intro hsel hnone
    simp only [filterEpisodes, if_pos hsel]
    exact List.filter_eq_nil_iff.mpr
      (fun e he h => hnone e he (of_decide_eq_true h))
  · intro hsel hsearch
    simp [filterEpisodes, hsel, hsearch]
  · intro hsel hsearch
    simp [filterEpisodes, hsel, hsearch]

/-- Witness for C3: with two distinct-id episodes, selecting `"5"` keeps
exactly the episode with id 5 even though the search text says otherwise;
a stale selection gives the empty list; an empty selection and empty
search give everything back. -/
theorem filterEpisodes_spec_witness :
    filterEpisodes [epPilot, epSecond] "zzz".data (natRepr 5) = [epPilot] ∧
    filterEpisodes [epPilot, epSecond] "zzz".data (natRepr 99) = [] ∧
    filterEpisodes [epPilot, epSecond] [] [] = [epPilot, epSecond] :=
  ⟨(filterEpisodes_spec [epPilot, epSecond] "zzz".data (natRepr 5)).2.1
      (by decide) (by decide) epPilot (by simp) rfl,
    (filterEpisodes_spec [epPilot, epSecond] "zzz".data (natRepr 99)).2.2.1
      (by decide) (by decide),
    (filterEpisodes_spec [epPilot, epSecond] [] []).2.2.2.2 rfl rfl⟩

/-- C9: whenever the explicit episode selection is non-empty, the episode
filter's result is independent of the episode search text. -/
theorem filterEpisodes_selection_independent (episodes : List Episode)
    (s1 s2 selId : List Char) (h : selId ≠ []) :
    filterEpisodes episodes s1 selId = filterEpisodes episodes s2 selId := by
  simp [filterEpisodes, h]

/-- Witness for C9 at a concrete selection and two different search
texts. -/
theorem filterEpisodes_selection_independent_witness :
    filterEpisodes [epPilot] "pilot".data (natRepr 5)
      = filterEpisodes [epPilot] "nothing".data (natRepr 5) :=
  filterEpisodes_selection_independent [epPilot] "pilot".data
    "nothing".data (natRepr 5) (by decide)

/-- C4: the shows filter returns all shows unchanged in order when the
trimmed folded search text is empty, and otherwise exactly the shows whose
folded name / folded extracted summary / folded space-joined genres
contain the folded search text — in particular the empty list when no
show matches. -/
theorem filterShows_spec (shows : List TVShow) (search : List Char) :
    (jsTrim (jsToLower search) = [] → filterShows shows search = shows) ∧
    (jsTrim (jsToLower search) ≠ [] →
      filterShows shows search
          = shows.filter (showMatchesSearch (jsTrim (jsToLower search)))) ∧
    (jsTrim (jsToLower search) ≠ [] →
      (∀ sh ∈ shows, showMatchesSearch (jsTrim (jsToLower search)) sh = false) →
      filterShows shows search = []) := by
  refine ⟨?_, ?_, ?_⟩
  · intro h
    simp [filterShows, h]
  · intro h
    simp [filterShows, h]
  · intro h hnone
    simp only [filterShows, if_neg h]
    exact List.filter_eq_nil_iff.mpr (fun sh hsh hm => by
      rw [hnone sh hsh] at hm
      cases hm)

/-- Witness for C4: the empty search returns the single show unchanged,
and a no-match search returns the empty list. -/
theorem filterShows_spec_witness :
    filterShows [shAlpha] [] = [shAlpha] ∧
    filterShows [shAlpha] "zzzz-no-match".data = [] :=
  ⟨(filterShows_spec [shAlpha] []).1 rfl,
    (filterShows_spec [shAlpha] "zzzz-no-match".data).2.2 (by decide)
      (by decide)⟩

/-- C6 counterexample: with `tEpFail`, the first `openShow(10)` completes
(with a failure) and the Cache Store stores nothing for show 10, yet the
gateway still holds the completed result and serves the second
`openShow(10)` from it — only one transport request is ever issued, so the
gateway retains completed results beyond what the Cache Store stores. -/
theorem gateway_retains_completed_cex :
    alookup (natRepr 10)
        (run tEpFail initSession
          [Ev.startup, Ev.openShowEv 10, Ev.openShowEv 10]).app.episodesByShowId
      = none ∧
    alookup (Url.episodesU 10)
        (run tEpFail initSession
          [Ev.startup, Ev.openShowEv 10, Ev.openShowEv 10]).fetchCache
      = some (Except.error ()) ∧
    urlHits (Url.episodesU 10)
        (run tEpFail initSession
          [Ev.startup, Ev.openShowEv 10, Ev.openShowEv 10]).transportLog
      = 1 :=
  ⟨rfl, rfl, rfl⟩

/-- C7: fetching the shows list sorts the shows by display name under the
case-insensitive order before storing: the result is a permutation of the
fetch order, sorted by folded name, stable (a pair tied under the folded
name keeps its fetch order), and it is what `setup` stores; in particular
`["Zeta", "alpha", "Beta"]` comes out `["alpha", "Beta", "Zeta"]`. -/
theorem fetchTVShows_sorts (t : Transport) (sess : Session)
    (data : List TVShow) :
    (sortShows data).Perm data ∧
    (sortShows data).Sorted showNameLe ∧
    (∀ a b, jsToLower a.name = jsToLower b.name → List.Sublist [a, b] data →
      List.Sublist [a, b] (sortShows data)) ∧
    (fetchResultFor t sess Url.showsU = .ok (.showsData data) →
      (fetchTVShows t sess).2 = .ok (sortShows data) ∧
      (setup t sess).app.shows = sortShows data) ∧
    sortShows [zetaShow, alphaShow, betaShow]
        = [alphaShow, betaShow, zetaShow] := by
  refine ⟨List.perm_insertionSort _ _, List.sorted_insertionSort _ _,
    ?_, ?_, by decide⟩
  · intro a b hab hsub
    have hle : showNameLe a b := le_of_eq hab
    exact List.pair_sublist_insertionSort hle hsub
  · intro hr
    constructor
    · have h3 : (getJson t sess Url.showsU).2 = .ok (.showsData data) := by
        rw [getJson_snd]; exact hr
      rw [fetchTVShows]
      rcases hg : getJson t sess Url.showsU with ⟨s1, res⟩
      rw [hg] at h3
      simp only at h3
      subst h3
      simp [hg]
    · have h2 : (getJson t (markLoading sess) Url.showsU).2
          = .ok (.showsData data) := by
        rw [getJson_snd]; exact hr
      rw [setup, fetchTVShows]
      rcases hg : getJson t (markLoading sess) Url.showsU with ⟨s1, res⟩
      rw [hg] at h2
      simp only at h2
      subst h2
      simp [hg]

/-- Witness for C7: `setup` stores the sorted example list, and a
case-insensitive tie keeps its fetch order. -/
theorem fetchTVShows_sorts_witness :
    (setup tSort initSession).app.shows
        = sortShows [zetaShow, alphaShow, betaShow] ∧
    List.Sublist [twinShow1, twinShow2] (sortShows [twinShow1, twinShow2]) :=
  ⟨((fetchTVShows_sorts tSort initSession
        [zetaShow, alphaShow, betaShow]).2.2.2.1 rfl).2,
    (fetchTVShows_sorts tSort initSession [twinShow1, twinShow2]).2.2.1
      twinShow1 twinShow2 (by decide) (List.Sublist.refl _)⟩

/-- Padding `padStart(2, '0')` of a rendered number agrees with the spec's
"zero-padded to at least two digits". -/
theorem padStart2_repr (k : Nat) : padStart2 (Nat.repr k) = padTwoSpec k := by
  have h1 : 1 ≤ (Nat.repr k).length := by
    have h := natRepr_ne_nil k
    rcases hd : (Nat.repr k).data with _ | ⟨c, cs⟩
    · exact absurd hd h
    · show 1 ≤ (Nat.repr k).data.length
      rw [hd]; simp
  rw [padStart2, padTwoSpec]
  by_cases h : (Nat.repr k).length ≤ 1
  · have hlen : (Nat.repr k).length = 1 := le_antisymm h h1
    rw [if_pos h, hlen]
    rfl
  · have h2 : 2 - (Nat.repr k).length = 0 := by omega
    rw [if_neg h, h2]
    rfl

/-- C8: `formatEpisodeCode` produces `"S" + season + "-E" + number` with
each component zero-padded to at least two digits; in particular
`formatEpisodeCode 1 7 = "S01-E07"` and `formatEpisodeCode 12 3 = "S12-E03"`. -/
theorem formatEpisodeCode_correct :
    formatEpisodeCode 1 7 = "S01-E07" ∧
    formatEpisodeCode 12 3 = "S12-E03" ∧
    ∀ s n, formatEpisodeCode s n = formatEpisodeCodeSpec s n :=
  ⟨rfl, rfl, fun s n => by
    rw [formatEpisodeCode, formatEpisodeCodeSpec, padStart2_repr,
      padStart2_repr]⟩

end TVApp
